import Mathlib

/-!
# Verification of the x-scorer pipeline (src/app.py)

Shallow embedding of the Streamlit "X Algo Pipeline Simulator".  Text is
modelled as `List Char` (Python strings are sequences of code points, and
`len` is the code-point count).  Scores are rationals, since every weight
and modifier in the source is an exact decimal.  Python's `str.lower` is
modelled by mapping `Char.toLower` over the characters; on the ASCII and
Japanese characters relevant to the banned-keyword rule this coincides
with Python's behaviour.  The regex `\w` of `#\w+` is Unicode-aware in
Python (`str` patterns default to Unicode matching), so it is modelled
as underscore plus a table of Unicode alphanumeric codepoint ranges
covering the scripts this application can see — ASCII, Latin, Greek,
Cyrillic, Hebrew, Arabic, Devanagari, Thai, Hangul, and in particular
Japanese hiragana, katakana and kanji with their half/full-width forms.
-/

/-- The process-wide weight table `WEIGHTS` of app.py (lines 6-13). -/
structure WeightTable where
  like : ℚ
  retweet : ℚ
  reply : ℚ
  image : ℚ
  video : ℚ
  link : ℚ
deriving DecidableEq, Repr

/-- `WEIGHTS = {like: 0.5, retweet: 1.0, reply: 13.5, image: 2.0, video: 2.0, link: -1.0}`. -/
def WEIGHTS : WeightTable :=
  { like := 1/2, retweet := 1, reply := 27/2, image := 2, video := 2, link := -1 }

/-- `PostCandidate` (app.py lines 19-27); only the four constructor fields
    are ever read by the stages. -/
structure PostCandidate where
  text : List Char
  has_media : Bool
  is_premium : Bool
  follower_count : Nat
deriving DecidableEq, Repr

/-- The two source types of stage 1: `Global Candidate (Phoenix Retrieval)`
    versus `In-Network Only (Thunder)`. -/
inductive SourceType where
  | globalCandidate
  | inNetworkOnly
deriving DecidableEq, Repr

/-- Status strings of stage 2 (`PASS`, `WARNING`, `DROP`); the UI renders
    `PASS` as `PASSED` and `DROP` as `DROPPED`. -/
inductive Stage2Status where
  | PASS
  | WARNING
  | DROP
deriving DecidableEq, Repr

/-- Status of stage 4 (`SHOW` or `LIMITED`). -/
inductive VisStatus where
  | SHOW
  | LIMITED
deriving DecidableEq, Repr

/-- The three presentation tiers printed after stage 4 (app.py lines 238-244). -/
inductive Tier where
  | rankedHigh
  | rankedMid
  | rankedLow
deriving DecidableEq, Repr

/-- The identity of each human-readable log line the stages can emit,
    with the data interpolated into it. -/
inductive LogEvent where
  | phoenixRetrieval
  | thunderOnly
  | mutedKeyword
  | spamFilter (count : Nat)
  | lowQuality
  | filteringPassed
  | mediaBoost (factor : ℚ)
  | linkPenalty
  | conversationStarter
  | longformBoost
  | lowScore
  | highVisibility
deriving DecidableEq, Repr

/-- Stage 1 (app.py lines 29-47): global candidate iff
    `post.is_premium or post.follower_count > 500`. -/
def stage_1_candidate_sources (post : PostCandidate) : SourceType × List LogEvent :=
  if post.is_premium || decide (post.follower_count > 500) then
    (SourceType.globalCandidate, [LogEvent.phoenixRetrieval])
  else
    (SourceType.inNetworkOnly, [LogEvent.thunderOnly])

/-- `spam_keywords = ["稼げる", "無料配布", "giveaway", "dm me"]` (app.py line 58). -/
def spam_keywords : List (List Char) :=
  ["稼げる".data, "無料配布".data, "giveaway".data, "dm me".data]

/-- Python `str.lower` restricted to the simple one-to-one case mapping;
    `Char.toLower` lowercases ASCII letters and fixes everything else,
    matching Python on ASCII and on the Japanese keyword characters. -/
def pyLower (s : List Char) : List Char := s.map Char.toLower

/-- Python's substring test `needle in hay`: `needle` occurs as a
    contiguous run of `hay`. -/
def isSubstringOf (needle : List Char) : List Char → Bool
  | [] => needle.isEmpty
  | c :: cs => needle.isPrefixOf (c :: cs) || isSubstringOf needle cs

/-- `any(word in post.text.lower() for word in spam_keywords)` (app.py line 59). -/
def hasBannedKeyword (text : List Char) : Bool :=
  spam_keywords.any (fun w => isSubstringOf w (pyLower text))

/-- Inclusive codepoint ranges of Unicode alphanumerics, the class
    matched by Python's Unicode-aware `\w` besides the underscore
    (CPython: `Py_UNICODE_ISALNUM(ch) || ch == '_'`, i.e. Unicode
    letters including modifier letters, plus decimal digits and other
    numeric characters such as `²` and `¼`).  The table lists the
    alphanumeric ranges of the scripts relevant to this application:
    ASCII, Latin with its extensions, Greek, Cyrillic, Armenian, Hebrew,
    Arabic, Devanagari, Thai, Hangul, hiragana, katakana, CJK
    ideographs, CJK numerals and iteration marks, and the full-width and
    half-width forms.  Combining marks, punctuation (such as the middle
    dot `・` and the kana sound marks `゛゜`) and symbols are not word
    characters, in Python as here. -/
def wordCharRanges : List (Nat × Nat) :=
  [ (0x30, 0x39), (0x41, 0x5A), (0x61, 0x7A),                 -- ASCII digits and letters
    (0xAA, 0xAA), (0xB2, 0xB3), (0xB5, 0xB5), (0xB9, 0xBA),   -- ª ² ³ µ ¹ º
    (0xBC, 0xBE),                                             -- ¼ ½ ¾
    (0xC0, 0xD6), (0xD8, 0xF6), (0xF8, 0x2C1),                -- Latin-1, extended, IPA
    (0x2C6, 0x2D1), (0x2E0, 0x2E4),                           -- modifier letters
    (0x391, 0x3A1), (0x3A3, 0x3C9),                           -- Greek
    (0x400, 0x481), (0x48A, 0x52F),                           -- Cyrillic
    (0x531, 0x556), (0x561, 0x587),                           -- Armenian
    (0x5D0, 0x5EA),                                           -- Hebrew
    (0x621, 0x64A), (0x660, 0x669),                           -- Arabic letters and digits
    (0x905, 0x939), (0x966, 0x96F),                           -- Devanagari letters, digits
    (0xE01, 0xE2E), (0xE50, 0xE59),                           -- Thai letters, digits
    (0x1100, 0x11FF),                                         -- Hangul jamo
    (0x3041, 0x3096), (0x309D, 0x309F),                       -- hiragana, iteration marks
    (0x30A1, 0x30FA), (0x30FC, 0x30FF),                       -- katakana, prolonged sound
    (0x3005, 0x3007), (0x3021, 0x3029),                       -- 々〆〇, Hangzhou numerals
    (0x3031, 0x3035), (0x3038, 0x303C),                       -- kana repeats, CJK numerals
    (0x3131, 0x318E),                                         -- Hangul compatibility jamo
    (0x31F0, 0x31FF),                                         -- katakana phonetic extensions
    (0x3400, 0x4DBF), (0x4E00, 0x9FFF),                       -- CJK ideographs (ext A, unified)
    (0xAC00, 0xD7A3),                                         -- Hangul syllables
    (0xF900, 0xFA6D), (0xFA70, 0xFAD9),                       -- CJK compatibility ideographs
    (0xFF10, 0xFF19), (0xFF21, 0xFF3A), (0xFF41, 0xFF5A),     -- full-width digits, letters
    (0xFF66, 0xFF9F),                                         -- half-width katakana
    (0xFFA0, 0xFFBE), (0xFFC2, 0xFFC7), (0xFFCA, 0xFFCF),     -- half-width Hangul
    (0xFFD2, 0xFFD7), (0xFFDA, 0xFFDC),
    (0x20000, 0x2A6DF), (0x2A700, 0x2EBE0),                   -- CJK ideograph extensions
    (0x2F800, 0x2FA1D) ]                                      -- CJK compat. supplement

/-- The regex class `\w` of Python's Unicode-aware `re`: underscore or a
    Unicode alphanumeric character. -/
def isWordChar (c : Char) : Bool :=
  c = '_' || wordCharRanges.any (fun r => r.1 ≤ c.toNat && c.toNat ≤ r.2)

/-- Scanner state for counting `#\w+` matches: between matches, right
    after an unconsumed `#`, or inside the word run of a current match. -/
inductive HashScanState where
  | normal
  | afterHash
  | inWord
deriving DecidableEq, Repr

/-- One step of the `#\w+` scanner on the next character. -/
def hashStep (c : Char) : HashScanState :=
  if c = '#' then HashScanState.afterHash else HashScanState.normal

/-- Left-to-right non-overlapping scan counting the matches of `#\w+`. -/
def countHashtagsAux : HashScanState → List Char → Nat
  | _, [] => 0
  | .normal, c :: cs => countHashtagsAux (hashStep c) cs
  | .afterHash, c :: cs =>
      if isWordChar c then countHashtagsAux HashScanState.inWord cs + 1
      else countHashtagsAux (hashStep c) cs
  | .inWord, c :: cs =>
      if isWordChar c then countHashtagsAux HashScanState.inWord cs
      else countHashtagsAux (hashStep c) cs

/-- Number of matches of `re.findall(r'#\w+', text)` (app.py line 65):
    a `#` followed by a maximal nonempty run of word characters, matches
    taken left to right without overlap. -/
def countHashtags (text : List Char) : Nat :=
  countHashtagsAux HashScanState.normal text

/-- Stage 2 (app.py lines 49-79): banned keyword → `DROP` (return), more
    than five hashtags → `DROP` (return), short text without media →
    `WARNING`, otherwise `PASS`. -/
def stage_2_filtering_pre_scoring (post : PostCandidate) : Stage2Status × List LogEvent :=
  if hasBannedKeyword post.text then
    (Stage2Status.DROP, [LogEvent.mutedKeyword])
  else if countHashtags post.text > 5 then
    (Stage2Status.DROP, [LogEvent.spamFilter (countHashtags post.text)])
  else if post.text.length < 5 && !post.has_media then
    (Stage2Status.WARNING, [LogEvent.lowQuality])
  else
    (Stage2Status.PASS, [LogEvent.filteringPassed])

/-- `re.findall(r'http[s]?://', text)` is nonempty iff the text contains
    `http://` or `https://` (app.py line 99). -/
def containsUrl (text : List Char) : Bool :=
  isSubstringOf "http://".data text || isSubstringOf "https://".data text

/-- `"?" in post.text or "？" in post.text` (app.py line 106). -/
def containsQuestion (text : List Char) : Bool :=
  text.contains '?' || text.contains '？'

/-- Stage 3 (app.py lines 81-119): `base_score` starts at `1.0` and is
    multiplied in order by `WEIGHTS["image"]` when media is present, by
    `0.5` when the text contains a URL, by `1.2` when it contains a
    question mark, and by `1.1` when it is longer than 140 characters and
    the poster is premium.  Returns the resulting `base_score` and log. -/
def stage_3_scoring (w : WeightTable) (post : PostCandidate) : ℚ × List LogEvent :=
  let b0 : ℚ × List LogEvent := (1, [])
  let b1 := if post.has_media then
      (b0.1 * w.image, b0.2 ++ [LogEvent.mediaBoost w.image]) else b0
  let b2 := if containsUrl post.text then
      (b1.1 * (1/2), b1.2 ++ [LogEvent.linkPenalty]) else b1
  let b3 := if containsQuestion post.text then
      (b2.1 * (12/10), b2.2 ++ [LogEvent.conversationStarter]) else b2
  let b4 := if post.text.length > 140 && post.is_premium then
      (b3.1 * (11/10), b3.2 ++ [LogEvent.longformBoost]) else b3
  b4

/-- `score_val` (app.py lines 211-213): the weighted sum of the simulated
    like, reply and repost counts. -/
def score_val (w : WeightTable) (likes replies reposts : ℕ) : ℚ :=
  likes * w.like + replies * w.reply + reposts * w.retweet

/-- `final_score = score_val * base_potential` (app.py line 216). -/
def final_score (w : WeightTable) (post : PostCandidate)
    (likes replies reposts : ℕ) : ℚ :=
  score_val w likes replies reposts * (stage_3_scoring w post).1

/-- Stage 4 (app.py lines 121-138): `LIMITED` when the final score is
    below 10, `SHOW` otherwise. -/
def stage_4_filtering_visibility (s : ℚ) : VisStatus × List LogEvent :=
  if s < 10 then (VisStatus.LIMITED, [LogEvent.lowScore])
  else (VisStatus.SHOW, [LogEvent.highVisibility])

/-- The tier messages after stage 4 (app.py lines 238-244):
    `> 100 → Ranked High`, `> 30 → Ranked Mid`, otherwise `Ranked Low`. -/
def presentation_tier (s : ℚ) : Tier :=
  if s > 100 then Tier.rankedHigh
  else if s > 30 then Tier.rankedMid
  else Tier.rankedLow

/-- Everything the run block renders for one evaluation: either the post
    was dropped at stage 2 (no scoring happens), or all four stages ran. -/
inductive PipelineOutcome where
  | dropped (source : SourceType × List LogEvent) (s2 : Stage2Status × List LogEvent)
  | scored (source : SourceType × List LogEvent) (s2 : Stage2Status × List LogEvent)
      (basePotential : ℚ) (s3log : List LogEvent) (finalScore : ℚ)
      (vis : VisStatus × List LogEvent) (tier : Tier)
deriving DecidableEq, Repr

/-- The run block (app.py lines 166-244): stage 1, stage 2, and, unless
    stage 2 returned `DROP`, stage 3, the score computation, stage 4 and
    the tier message. -/
def run_pipeline (w : WeightTable) (post : PostCandidate)
    (likes replies reposts : ℕ) : PipelineOutcome :=
  let s1 := stage_1_candidate_sources post
  let s2 := stage_2_filtering_pre_scoring post
  if s2.1 = Stage2Status.DROP then
    PipelineOutcome.dropped s1 s2
  else
    let s3 := stage_3_scoring w post
    let fs := score_val w likes replies reposts * s3.1
    PipelineOutcome.scored s1 s2 s3.1 s3.2 fs
      (stage_4_filtering_visibility fs) (presentation_tier fs)

/-- What the app shows in response to the run button (app.py lines
    166 and 246-247): the pipeline runs only when the button is pressed
    and the text is non-empty; a pressed button with empty text shows
    the error message `テキストを入力してください。` instead. -/
inductive AppOutput where
  | ran (out : PipelineOutcome)
  | errorEmptyText
  | nothingShown
deriving DecidableEq, Repr

/-- The top-level `if run_btn and input_text: ... elif run_btn: st.error(...)`. -/
def run_app (run_btn : Bool) (text : List Char) (has_media is_premium : Bool)
    (follower_count likes replies reposts : ℕ) : AppOutput :=
  if run_btn && !text.isEmpty then
    AppOutput.ran (run_pipeline WEIGHTS
      ⟨text, has_media, is_premium, follower_count⟩ likes replies reposts)
  else if run_btn then
    AppOutput.errorEmptyText
  else
    AppOutput.nothingShown

/-- The base potential as stated by the spec: starts at `1.0` and is
    multiplied, in this fixed order, by `2.0` for media, `0.5` for a URL,
    `1.2` for a question mark, and `1.1` for length above 140 with a
    premium poster, each factor guarded by its own condition. -/
def spec_base_potential (post : PostCandidate) : ℚ :=
  1 * (if post.has_media = true then 2 else 1)
    * (if containsUrl post.text = true then 0.5 else 1)
    * (if containsQuestion post.text = true then 1.2 else 1)
    * (if 140 < post.text.length ∧ post.is_premium = true then 1.1 else 1)

/-- Closed form of the `base_score` computed by stage 3: a product of the
    four independent modifier factors, with the URL factor hard-coded to
    `1/2` and the media factor read from the weight table. -/
theorem base_potential_closed_form (w : WeightTable) (post : PostCandidate) :
    (stage_3_scoring w post).1 =
      (if post.has_media = true then w.image else 1) *
      (if containsUrl post.text = true then (1 : ℚ)/2 else 1) *
      (if containsQuestion post.text = true then (12 : ℚ)/10 else 1) *
      (if 140 < post.text.length ∧ post.is_premium = true then (11 : ℚ)/10 else 1) := by
  unfold stage_3_scoring
  cases hm : post.has_media <;> cases hp : post.is_premium <;>
    cases hu : containsUrl post.text <;> cases hq : containsQuestion post.text <;>
    by_cases hl : 140 < post.text.length <;>
    simp [hm, hp, hu, hq, hl]

/-- C1: for every post and simulated engagement triple, the final score is
    `(likes*0.5 + replies*13.5 + reposts*1.0) * basePotential`, where the
    base potential is the ordered product of the four guarded modifiers. -/
theorem C1_final_score_formula (post : PostCandidate) (likes replies reposts : ℕ) :
    final_score WEIGHTS post likes replies reposts =
      ((likes : ℚ) * 0.5 + (replies : ℚ) * 13.5 + (reposts : ℚ) * 1.0) *
        spec_base_potential post := by
  unfold final_score score_val spec_base_potential
  rw [base_potential_closed_form]
  cases hm : post.has_media <;> cases hp : post.is_premium <;>
    cases hu : containsUrl post.text <;> cases hq : containsQuestion post.text <;>
    by_cases hl : 140 < post.text.length <;>
    simp [hm, hp, hu, hq, hl, WEIGHTS] <;> norm_num

/-- C3: stage 1 classifies the candidate as global iff the poster is
    premium or has more than 500 followers; in particular 500 followers
    without premium is local-only and 501 followers is global. -/
theorem C3_sourcing_global_iff (post : PostCandidate) :
    ((stage_1_candidate_sources post).1 = SourceType.globalCandidate ↔
      (post.is_premium = true ∨ 500 < post.follower_count)) ∧
    (∀ t : List Char, ∀ m : Bool,
      (stage_1_candidate_sources ⟨t, m, false, 500⟩).1 = SourceType.inNetworkOnly) ∧
    (∀ t : List Char, ∀ m : Bool,
      (stage_1_candidate_sources ⟨t, m, false, 501⟩).1 = SourceType.globalCandidate) := by
  refine ⟨?_, ?_, ?_⟩
  · unfold stage_1_candidate_sources
    by_cases hp : post.is_premium <;> by_cases hf : 500 < post.follower_count <;>
      simp [hp, hf]
  · intro t m; simp [stage_1_candidate_sources]
  · intro t m; simp [stage_1_candidate_sources]

/-- C4: stage 4 returns `LIMITED` iff the final score is below 10 and
    `SHOW` otherwise; the presentation tier is high iff the score exceeds
    100, mid iff it is in (30, 100], and low iff it is at most 30. -/
theorem C4_visibility_bands (s : ℚ) :
    ((stage_4_filtering_visibility s).1 =
      (if s < 10 then VisStatus.LIMITED else VisStatus.SHOW)) ∧
    (presentation_tier s = Tier.rankedHigh ↔ 100 < s) ∧
    (presentation_tier s = Tier.rankedMid ↔ 30 < s ∧ s ≤ 100) ∧
    (presentation_tier s = Tier.rankedLow ↔ s ≤ 30) := by
  refine ⟨?_, ?_, ?_, ?_⟩
  · unfold stage_4_filtering_visibility
    split_ifs <;> rfl
  all_goals
    unfold presentation_tier
    split_ifs with h1 h2 <;> simp_all <;> linarith

/-- C5: on text `Test post?` with media, no premium and simulated counts
    (10, 0, 0), the base potential is 2.4, the engagement score 5, the
    final score 12, visibility `SHOW` and tier ranked low. -/
theorem C5_test_post_example (f : ℕ) :
    (stage_3_scoring WEIGHTS ⟨"Test post?".data, true, false, f⟩).1 = 2.4 ∧
    score_val WEIGHTS 10 0 0 = 5 ∧
    final_score WEIGHTS ⟨"Test post?".data, true, false, f⟩ 10 0 0 = 12 ∧
    (stage_4_filtering_visibility
      (final_score WEIGHTS ⟨"Test post?".data, true, false, f⟩ 10 0 0)).1 = VisStatus.SHOW ∧
    presentation_tier
      (final_score WEIGHTS ⟨"Test post?".data, true, false, f⟩ 10 0 0) = Tier.rankedLow := by
  have hu : containsUrl "Test post?".data = false := by decide
  have hq : containsQuestion "Test post?".data = true := by decide
  have hl : ¬ (140 < "Test post?".data.length) := by decide
  have hbase : (stage_3_scoring WEIGHTS ⟨"Test post?".data, true, false, f⟩).1 = 2.4 := by
    rw [base_potential_closed_form]
    simp [hu, hq, hl, WEIGHTS]
    norm_num
  have hfinal : final_score WEIGHTS ⟨"Test post?".data, true, false, f⟩ 10 0 0 = 12 := by
    unfold final_score score_val
    rw [hbase]
    simp [WEIGHTS]
    norm_num
  refine ⟨hbase, ?_, hfinal, ?_, ?_⟩
  · unfold score_val WEIGHTS; norm_num
  · rw [hfinal]; unfold stage_4_filtering_visibility; norm_num
  · rw [hfinal]; unfold presentation_tier; norm_num

/-- C6: the pipeline is deterministic — equal posts, equal simulated
    counts and equal weight tables produce identical outcomes (statuses,
    logs and scores), so the final result is a pure function of those
    inputs with no hidden state. -/
theorem C6_pipeline_deterministic (w1 w2 : WeightTable) (p1 p2 : PostCandidate)
    (l1 l2 r1 r2 q1 q2 : ℕ) (hw : w1 = w2) (hp : p1 = p2) (hl : l1 = l2)
    (hr : r1 = r2) (hq : q1 = q2) :
    run_pipeline w1 p1 l1 r1 q1 = run_pipeline w2 p2 l2 r2 q2 := by
  subst hw; subst hp; subst hl; subst hr; subst hq; rfl

/-- C6 witness: two runs on one concrete input coincide. -/
theorem C6_pipeline_deterministic_witness :
    run_pipeline WEIGHTS ⟨"hello #x".data, true, false, 10⟩ 1 2 3 =
      run_pipeline WEIGHTS ⟨"hello #x".data, true, false, 10⟩ 1 2 3 :=
  C6_pipeline_deterministic WEIGHTS WEIGHTS ⟨"hello #x".data, true, false, 10⟩
    ⟨"hello #x".data, true, false, 10⟩ 1 1 2 2 3 3 rfl rfl rfl rfl rfl

/-- C8: pressing run with empty text shows the error message and never
    enters the pipeline; with non-empty text the pipeline runs. -/
theorem C8_empty_text_guard (text : List Char) (m p : Bool)
    (f likes replies reposts : ℕ) :
    (text = [] →
      run_app true text m p f likes replies reposts = AppOutput.errorEmptyText) ∧
    (text ≠ [] →
      run_app true text m p f likes replies reposts =
        AppOutput.ran (run_pipeline WEIGHTS ⟨text, m, p, f⟩ likes replies reposts)) := by
  constructor
  · intro h; subst h; rfl
  · intro h
    unfold run_app
    simp [List.isEmpty_iff, h]

/-- C8 witness: concrete empty-text and non-empty-text runs. -/
theorem C8_empty_text_guard_witness :
    run_app true [] true false 0 1 2 3 = AppOutput.errorEmptyText ∧
    run_app true "hi".data true false 0 1 2 3 =
      AppOutput.ran (run_pipeline WEIGHTS ⟨"hi".data, true, false, 0⟩ 1 2 3) :=
  ⟨(C8_empty_text_guard [] true false 0 1 2 3).1 rfl,
   (C8_empty_text_guard "hi".data true false 0 1 2 3).2 (by decide)⟩

/-- C9: the final score reads only the like, reply, retweet and image
    weights — two weight tables agreeing on those four entries give the
    same score whatever their link and video entries are — and the URL
    condition enters the base potential only through the hard-coded
    factor `1/2`, never through the link weight. -/
theorem C9_link_video_weights_unread (w1 w2 : WeightTable) (post : PostCandidate)
    (likes replies reposts : ℕ) (hlike : w1.like = w2.like)
    (hreply : w1.reply = w2.reply) (hrt : w1.retweet = w2.retweet)
    (him : w1.image = w2.image) :
    final_score w1 post likes replies reposts =
      final_score w2 post likes replies reposts ∧
    (stage_3_scoring w1 post).1 =
      (if post.has_media = true then w1.image else 1) *
      (if containsUrl post.text = true then (1 : ℚ)/2 else 1) *
      (if containsQuestion post.text = true then (12 : ℚ)/10 else 1) *
      (if 140 < post.text.length ∧ post.is_premium = true then (11 : ℚ)/10 else 1) := by
  refine ⟨?_, base_potential_closed_form w1 post⟩
  unfold final_score score_val
  rw [base_potential_closed_form, base_potential_closed_form,
    hlike, hreply, hrt, him]

/-- Weight table used by the C9 witness: it agrees with `WEIGHTS` on
    like, reply, retweet and image but not on link and video. -/
def WEIGHTS_alt : WeightTable :=
  { like := 1/2, retweet := 1, reply := 27/2, image := 2, video := 77, link := 99 }

/-- C9 witness: on a post containing a URL, `WEIGHTS` and `WEIGHTS_alt`
    (which differ exactly in the link and video entries) give the same
    final score. -/
theorem C9_link_video_weights_unread_witness :
    final_score WEIGHTS ⟨"see https://e.co".data, true, false, 0⟩ 1 2 3 =
      final_score WEIGHTS_alt ⟨"see https://e.co".data, true, false, 0⟩ 1 2 3 ∧
    (stage_3_scoring WEIGHTS ⟨"see https://e.co".data, true, false, 0⟩).1 =
      (if (true : Bool) = true then WEIGHTS.image else 1) *
      (if containsUrl "see https://e.co".data = true then (1 : ℚ)/2 else 1) *
      (if containsQuestion "see https://e.co".data = true then (12 : ℚ)/10 else 1) *
      (if 140 < "see https://e.co".data.length ∧ (false : Bool) = true
        then (11 : ℚ)/10 else 1) :=
  C9_link_video_weights_unread WEIGHTS WEIGHTS_alt
    ⟨"see https://e.co".data, true, false, 0⟩ 1 2 3 rfl rfl rfl rfl

/-- C10: the banned-keyword rule works on the lowercased text and fires
    exactly when one of the four keywords occurs in it; when it fires the
    post is dropped, and in particular the uppercase variants `GIVEAWAY`
    and `DM ME` are dropped. -/
theorem C10_banned_keywords_case_insensitive (post : PostCandidate) (t : List Char) :
    (hasBannedKeyword t = true ↔
      (isSubstringOf "稼げる".data (pyLower t) = true ∨
       isSubstringOf "無料配布".data (pyLower t) = true ∨
       isSubstringOf "giveaway".data (pyLower t) = true ∨
       isSubstringOf "dm me".data (pyLower t) = true)) ∧
    (hasBannedKeyword post.text = true →
      (stage_2_filtering_pre_scoring post).1 = Stage2Status.DROP) ∧
    (stage_2_filtering_pre_scoring ⟨"Big GIVEAWAY!".data, true, false, 0⟩).1 =
      Stage2Status.DROP ∧
    (stage_2_filtering_pre_scoring ⟨"DM ME now".data, true, false, 0⟩).1 =
      Stage2Status.DROP := by
  refine ⟨?_, ?_, by decide, by decide⟩
  · unfold hasBannedKeyword spam_keywords
    simp [List.any_eq_true]
  · intro h
    unfold stage_2_filtering_pre_scoring
    simp [h]

/-- C10 witness: the rule fires on `Big GIVEAWAY!` and the post is
    dropped. -/
theorem C10_banned_keywords_case_insensitive_witness :
    (stage_2_filtering_pre_scoring ⟨"Big GIVEAWAY!".data, true, false, 0⟩).1 =
      Stage2Status.DROP :=
  (C10_banned_keywords_case_insensitive ⟨"Big GIVEAWAY!".data, true, false, 0⟩
    "Big GIVEAWAY!".data).2.1 (by decide)

/-- Modelled from the spec: the repository's second script, the "post
    analyzer" that invokes the image classifier, is not among the sources
    under src/ (only the pipeline simulator app.py is).  Per §4.3 the
    classifier returns a probability per prompt; the prompts are labeled
    either unsafe or safe, and the caller also supplies target prompts.
    This record holds the probabilities of the unsafe-labeled prompts and
    of the safe-labeled prompt. -/
structure ClassifierReading where
  harmProbs : List ℚ
  safeProb : ℚ
deriving DecidableEq, Repr

/-- Modelled from the spec: `isUnsafe = sum(probabilities for
    unsafe-labeled prompts) > probability(safe-labeled prompt)`. -/
def classifier_flags_harm (r : ClassifierReading) : Bool :=
  decide (r.safeProb < r.harmProbs.sum)

/-- Modelled from the spec: the fixed acceptance threshold 0.2 for the
    best target match. -/
def acceptance_threshold : ℚ := 0.2

/-- Modelled from the spec: the "best target match" is the
    caller-provided target prompt with the highest probability. -/
def best_target_match (targetProbs : List ℚ) : ℚ :=
  targetProbs.foldr max 0

/-- Modelled from the spec: the best target match is compared against the
    acceptance threshold to decide the bonus/penalty branch. -/
def target_bonus_branch (targetProbs : List ℚ) : Bool :=
  decide (acceptance_threshold ≤ best_target_match targetProbs)

/-- Modelled from the spec: when the classifier flags the image, the
    total score is forced to the minimum band regardless of whatever raw
    score the target-tag matches produced. -/
def analyzer_total_score (minBand rawScore : ℚ) (r : ClassifierReading) : ℚ :=
  if classifier_flags_harm r then minBand else rawScore

/-- C7: the core flags an image as unsafe exactly when the summed
    probabilities of the unsafe-labeled prompts exceed the safe one, and
    the bonus/penalty branch compares the highest-probability target
    prompt against the threshold 0.2; on nsfw=0.6, explicit=0.1, safe=0.3
    the flag is true and the total score is the minimum band whatever the
    target-tag raw score was. -/
theorem C7_classifier_decision :
    classifier_flags_harm ⟨[0.6, 0.1], 0.3⟩ = true ∧
    (∀ minBand raw : ℚ, analyzer_total_score minBand raw ⟨[0.6, 0.1], 0.3⟩ = minBand) ∧
    (∀ r : ClassifierReading,
      classifier_flags_harm r = true ↔ r.harmProbs.sum > r.safeProb) ∧
    (∀ targetProbs : List ℚ,
      target_bonus_branch targetProbs = true ↔
        (0.2 : ℚ) ≤ best_target_match targetProbs) := by
  have hflag : classifier_flags_harm ⟨[0.6, 0.1], 0.3⟩ = true := by
    unfold classifier_flags_harm
    simp
    norm_num
  refine ⟨hflag, ?_, ?_, ?_⟩
  · intro minBand raw
    unfold analyzer_total_score
    rw [hflag]
    simp
  · intro r
    unfold classifier_flags_harm
    simp [gt_iff_lt]
  · intro targetProbs
    unfold target_bonus_branch acceptance_threshold
    simp
